import Mathlib

/- Verification of the WebWorldWind heat-map subsystem: the spatial filter
   (src/layer/heatmap/GeographicalFilter.js) and the gradient / tile-extension
   logic (src/layer/heatmap/HeatMapLayer.js).  Geographic coordinates and
   measures are embedded as rational numbers; JavaScript objects keyed by
   integer degrees become functions out of Int. -/

section HeatMapVerification

attribute [local semireducible] Rat.add

/-- Modelled from the spec: MeasuredLocation (geom/MeasuredLocation.js is not
under src) is the WeightedPoint record holding latitude, longitude and
measure. -/
structure MeasuredLocation where
  latitude : ℚ
  longitude : ℚ
  measure : ℚ
deriving DecidableEq, Repr

/-- Modelled from the spec: Sector (geom/Sector.js is not under src) is an
axis-aligned latitude/longitude bounding box; longitude bounds may leave
[-180, 180] to express wraparound queries. -/
structure Sector where
  minLatitude : ℚ
  maxLatitude : ℚ
  minLongitude : ℚ
  maxLongitude : ℚ
deriving DecidableEq, Repr

/-- Modelled from the spec: the point-containment test of Sector, inclusive on
all four bounds (the reference tests of GeographicalFilter require boundary
points to be contained). -/
def Sector.containsLocation (s : Sector) (latitude longitude : ℚ) : Bool :=
  decide (s.minLatitude ≤ latitude) && decide (latitude ≤ s.maxLatitude) &&
    decide (s.minLongitude ≤ longitude) && decide (longitude ≤ s.maxLongitude)

/-- GeographicalFilter.prototype.createGrid: buckets every point into the cell
given by the floors of its coordinates.  The JavaScript builds a nested object
keyed by integer degrees; the embedding is the cell-lookup function it
realises, each cell listing its points in ingestion order. -/
def createGrid (measuredLocations : List MeasuredLocation) :
    Int → Int → List MeasuredLocation :=
  fun lat lon =>
    measuredLocations.filter fun measured =>
      Rat.floor measured.latitude == lat && Rat.floor measured.longitude == lon

/-- The extraLongitudeBefore amount computed identically at the top of both
grid and array queries: the part of the request wrapping past -180. -/
def extraLongitudeBefore (sector : Sector) : Int :=
  if Rat.floor sector.minLongitude ≤ -180 then
    |Rat.floor sector.minLongitude - (-180)|
  else 0

/-- The extraLongitudeAfter amount computed identically at the top of both
grid and array queries: the part of the request wrapping past 180. -/
def extraLongitudeAfter (sector : Sector) : Int :=
  if 180 ≤ Rat.floor sector.maxLongitude then
    |Rat.floor sector.maxLongitude - 180|
  else 0

/-- The floored, pole-clamped lower latitude scan bound of the grid query. -/
def gridMinLatitude (sector : Sector) : Int :=
  if Rat.floor sector.minLatitude ≤ -90 then -90 else Rat.floor sector.minLatitude

/-- The floored, pole-clamped upper latitude scan bound of the grid query. -/
def gridMaxLatitude (sector : Sector) : Int :=
  if 90 ≤ Rat.floor sector.maxLatitude then 90 else Rat.floor sector.maxLatitude

/-- The floored lower longitude scan bound of the grid query, clamped at -180. -/
def gridMinLongitude (sector : Sector) : Int :=
  if Rat.floor sector.minLongitude ≤ -180 then -180 else Rat.floor sector.minLongitude

/-- The floored upper longitude scan bound of the grid query, clamped at 180. -/
def gridMaxLongitude (sector : Sector) : Int :=
  if 180 ≤ Rat.floor sector.maxLongitude then 180 else Rat.floor sector.maxLongitude

/-- The inclusive integer range scanned by the JavaScript for loops. -/
def intRange (a b : Int) : List Int :=
  (List.range (b + 1 - a).toNat).map fun (n : Nat) => a + (n : Int)

/-- The primary pass of GeographicalFilter.prototype.grid: scan every cell in
the clamped bounds and keep the points the original sector contains. -/
def gridPrimary (data : Int → Int → List MeasuredLocation) (sector : Sector) :
    List MeasuredLocation :=
  (intRange (gridMinLatitude sector) (gridMaxLatitude sector)).flatMap fun lat =>
    (intRange (gridMinLongitude sector) (gridMaxLongitude sector)).flatMap fun lon =>
      (data lat lon).filter fun element =>
        sector.containsLocation element.latitude element.longitude

/-- The wrap-before pass of GeographicalFilter.prototype.grid: scan the slice
[180 - extraLongitudeBefore, 180] and re-emit each contained point shifted by
-360 degrees of longitude. -/
def gridBefore (data : Int → Int → List MeasuredLocation) (sector : Sector) :
    List MeasuredLocation :=
  let beforeSector : Sector :=
    ⟨(gridMinLatitude sector : ℚ), (gridMaxLatitude sector : ℚ),
      ((180 - extraLongitudeBefore sector : Int) : ℚ), 180⟩
  (intRange (gridMinLatitude sector) (gridMaxLatitude sector)).flatMap fun lat =>
    (intRange (180 - extraLongitudeBefore sector) 180).flatMap fun lon =>
      ((data lat lon).filter fun element =>
          beforeSector.containsLocation element.latitude element.longitude).map
        fun element => ⟨element.latitude, -360 + element.longitude, element.measure⟩

/-- The wrap-after pass of GeographicalFilter.prototype.grid: scan the slice
[-180, -180 + extraLongitudeAfter] and re-emit each contained point shifted by
+360 degrees of longitude. -/
def gridAfter (data : Int → Int → List MeasuredLocation) (sector : Sector) :
    List MeasuredLocation :=
  let afterSector : Sector :=
    ⟨(gridMinLatitude sector : ℚ), (gridMaxLatitude sector : ℚ),
      -180, ((-180 + extraLongitudeAfter sector : Int) : ℚ)⟩
  (intRange (gridMinLatitude sector) (gridMaxLatitude sector)).flatMap fun lat =>
    (intRange (-180) (-180 + extraLongitudeAfter sector)).flatMap fun lon =>
      ((data lat lon).filter fun element =>
          afterSector.containsLocation element.latitude element.longitude).map
        fun element => ⟨element.latitude, 360 + element.longitude, element.measure⟩

/-- GeographicalFilter.prototype.grid: primary pass plus the wrap passes, each
wrap pass guarded by its amount being nonzero. -/
def GeographicalFilter.grid (data : Int → Int → List MeasuredLocation)
    (sector : Sector) : List MeasuredLocation :=
  gridPrimary data sector ++
    (if extraLongitudeBefore sector ≠ 0 then gridBefore data sector else []) ++
    (if extraLongitudeAfter sector ≠ 0 then gridAfter data sector else [])

/-- The primary pass of GeographicalFilter.prototype.array: keep every stored
point the sector contains. -/
def arrayPrimary (data : List MeasuredLocation) (sector : Sector) :
    List MeasuredLocation :=
  data.filter fun element =>
    sector.containsLocation element.latitude element.longitude

/-- The wrap-before pass of GeographicalFilter.prototype.array.  Unlike the
grid variant, the auxiliary sector uses the floored latitude bounds without
pole clamping. -/
def arrayBefore (data : List MeasuredLocation) (sector : Sector) :
    List MeasuredLocation :=
  let beforeSector : Sector :=
    ⟨(Rat.floor sector.minLatitude : ℚ), (Rat.floor sector.maxLatitude : ℚ),
      ((180 - extraLongitudeBefore sector : Int) : ℚ), 180⟩
  (data.filter fun element =>
      beforeSector.containsLocation element.latitude element.longitude).map
    fun element => ⟨element.latitude, -360 + element.longitude, element.measure⟩

/-- The wrap-after pass of GeographicalFilter.prototype.array. -/
def arrayAfter (data : List MeasuredLocation) (sector : Sector) :
    List MeasuredLocation :=
  let afterSector : Sector :=
    ⟨(Rat.floor sector.minLatitude : ℚ), (Rat.floor sector.maxLatitude : ℚ),
      -180, ((-180 + extraLongitudeAfter sector : Int) : ℚ)⟩
  (data.filter fun element =>
      afterSector.containsLocation element.latitude element.longitude).map
    fun element => ⟨element.latitude, 360 + element.longitude, element.measure⟩

/-- GeographicalFilter.prototype.array: primary pass plus the guarded wrap
passes. -/
def GeographicalFilter.array (data : List MeasuredLocation) (sector : Sector) :
    List MeasuredLocation :=
  arrayPrimary data sector ++
    (if extraLongitudeBefore sector ≠ 0 then arrayBefore data sector else []) ++
    (if extraLongitudeAfter sector ≠ 0 then arrayAfter data sector else [])

/-- The comparator passed to result.sort inside GeographicalFilter.prototype
.filter, embedded with its literal tie-break branch, which compares the
longitude of the second element with itself. -/
def jsCompare (elm1 elm2 : MeasuredLocation) : Int :=
  if elm1.latitude > elm2.latitude then 1
  else if elm1.latitude < elm2.latitude then -1
  else if elm1.longitude > elm2.longitude then 1
  else if elm2.longitude < elm2.longitude then -1
  else 0

/-- Insertion step of the modelled JavaScript engine sort: the element is
placed at the first position whose entry the comparator reports as greater. -/
def sortInsert (cmp : MeasuredLocation → MeasuredLocation → Int)
    (x : MeasuredLocation) : List MeasuredLocation → List MeasuredLocation
  | [] => [x]
  | y :: ys => if cmp x y < 0 then x :: y :: ys else y :: sortInsert cmp x ys

/-- Modelled JavaScript Array sort: a stable insertion sort consulting the
comparator only through the sign of its result, matching the binary insertion
used by engines on short arrays.  ECMAScript leaves the order implementation
defined when the comparator is inconsistent, as jsCompare is. -/
def jsArraySort (cmp : MeasuredLocation → MeasuredLocation → Int)
    (l : List MeasuredLocation) : List MeasuredLocation :=
  l.foldl (fun sorted x => sortInsert cmp x sorted) []

/-- The stored data of a GeographicalFilter: a cell table in GRID mode, the
raw point list in ARRAY mode. -/
inductive FilterData where
  | grid (cells : Int → Int → List MeasuredLocation)
  | array (locations : List MeasuredLocation)

/-- The GRID structure-mode string. -/
def gridMode : String := "GRID"

/-- The ARRAY structure-mode string. -/
def arrayMode : String := "ARRAY"

/-- The GeographicalFilter constructor: rejects every structure mode other
than GRID and ARRAY with an ArgumentError, builds the grid for GRID, stores
the list for ARRAY. -/
def GeographicalFilter.make (data : List MeasuredLocation)
    (dataStructure : String) : Except String FilterData :=
  if dataStructure ≠ gridMode ∧ dataStructure ≠ arrayMode then
    .error ("The provided data structure was incorrect. Use either GRID or ARRAY.")
  else if dataStructure = gridMode then
    .ok (.grid (createGrid data))
  else
    .ok (.array data)

/-- GeographicalFilter.prototype.filter: run the query of the stored
structure, then sort the result with jsCompare. -/
def GeographicalFilter.filter (fd : FilterData) (sector : Sector) :
    List MeasuredLocation :=
  let result :=
    match fd with
    | .grid cells => GeographicalFilter.grid cells sector
    | .array locations => GeographicalFilter.array locations sector
  jsArraySort jsCompare result

/-- Modelled from the spec: IntervalType (layer/heatmap/IntervalType.js is not
under src) enumerates the two interval strategies of the gradient builder. -/
inductive IntervalType where
  | CONTINUOUS
  | QUANTILES
deriving DecidableEq, Repr

/-- A gradient-table key.  JavaScript object keys are stringified numbers;
some q embeds a finite numeric key, none embeds the NaN key produced when the
quantile numerator reads the absent intensity field. -/
abbrev GradientKey := Option ℚ

/-- Assignment to a JavaScript object property: an existing key keeps its
position and takes the new value, a fresh key is appended. -/
def objInsert (gradient : List (GradientKey × String)) (key : GradientKey)
    (color : String) : List (GradientKey × String) :=
  if gradient.any fun entry => entry.1 == key then
    gradient.map fun entry => if entry.1 == key then (key, color) else entry
  else gradient ++ [(key, color)]

/-- The CONTINUOUS loop of HeatMapLayer.prototype.setGradient: the color at
position index of the scale is written at key index divided by the scale
length. -/
def continuousGradient (scale : List String) : List (GradientKey × String) :=
  scale.enum.foldl
    (fun gradient entry =>
      objInsert gradient (some ((entry.1 : ℚ) / (scale.length : ℚ))) entry.2)
    []

/-- The QUANTILES loop of HeatMapLayer.prototype.setGradient for the case of
enough data: the key is the intensity field of the chosen point divided by the
maximal measure, but MeasuredLocation has no intensity field, so the numerator
is the JavaScript undefined value and every key is NaN. -/
def quantilesGradient (scale : List String) : List (GradientKey × String) :=
  scale.enum.foldl (fun gradient entry => objInsert gradient none entry.2) []

/-- HeatMapLayer.prototype.setGradient, as the pair of the produced gradient
table and the caller-visible state of the data array after the call.  The
QUANTILES branch first sorts the array in place by measure, then reads the
measure of its last element; on an empty array that read throws a TypeError,
embedded as a none table. -/
def setGradient (intervalType : IntervalType) (scale : List String)
    (data : List MeasuredLocation) :
    Option (List (GradientKey × String)) × List MeasuredLocation :=
  match intervalType with
  | .CONTINUOUS => (some (continuousGradient scale), data)
  | .QUANTILES =>
    let sorted := data.mergeSort fun item1 item2 =>
      decide (item1.measure ≤ item2.measure)
    match sorted.getLast? with
    | none => (none, sorted)
    | some _ =>
      if scale.length ≤ data.length then
        (some (quantilesGradient scale), sorted)
      else
        (some (continuousGradient scale), sorted)

/-- The fixed tile width set in the HeatMapLayer constructor. -/
def tileWidth : Nat := 512

/-- The fixed tile height set in the HeatMapLayer constructor. -/
def tileHeight : Nat := 512

/-- HeatMapLayer.prototype.calculateExtendedSector: the sector grown on each
side by the extension factor times its span, paired with the factor. -/
def calculateExtendedSector (sector : Sector) : Sector × ℚ :=
  let extensionFactor : ℚ := 1
  let latitudeChange := (sector.maxLatitude - sector.minLatitude) * extensionFactor
  let longitudeChange := (sector.maxLongitude - sector.minLongitude) * extensionFactor
  (⟨sector.minLatitude - latitudeChange, sector.maxLatitude + latitudeChange,
      sector.minLongitude - longitudeChange, sector.maxLongitude + longitudeChange⟩,
    extensionFactor)

/-- The canvas width computed in HeatMapLayer.prototype.retrieveTileImage:
the tile width plus twice the ceiling of the extension factor times the tile
width. -/
def retrieveCanvasWidth (sector : Sector) : Int :=
  (tileWidth : Int) + 2 * ⌈(calculateExtendedSector sector).2 * (tileWidth : ℚ)⌉

/-- The canvas height computed in HeatMapLayer.prototype.retrieveTileImage. -/
def retrieveCanvasHeight (sector : Sector) : Int :=
  (tileHeight : Int) + 2 * ⌈(calculateExtendedSector sector).2 * (tileHeight : ℚ)⌉

/-- The reference point set of the GeographicalFilter test suite: one point
per 5-degree latitude step, longitudes from 135 to -179.9. -/
def referenceLocations : List MeasuredLocation :=
  [⟨-45, -140, 10⟩, ⟨-40, -145, 10⟩, ⟨-35, -150, 10⟩, ⟨-30, -155, 10⟩,
    ⟨-25, -160, 10⟩, ⟨-20, -165, 10⟩, ⟨-15, -170, 10⟩, ⟨-10, -175, 10⟩,
    ⟨-5, mkRat (-1799) 10, 10⟩,
    ⟨0, mkRat 1799 10, 10⟩, ⟨5, 175, 10⟩, ⟨10, 170, 10⟩, ⟨15, 165, 10⟩,
    ⟨20, 160, 10⟩, ⟨25, 155, 10⟩, ⟨30, 150, 10⟩, ⟨35, 145, 10⟩,
    ⟨40, 140, 10⟩, ⟨45, 135, 10⟩]

/-- The antimeridian query region of the reference test. -/
def antemeridianSector : Sector := ⟨-30, 30, -225, -160⟩

/-- Two points sharing a latitude with descending longitudes, exercising the
longitude tie-break of the filter comparator. -/
def tiePoints : List MeasuredLocation := [⟨0, 2, 1⟩, ⟨0, 1, 1⟩]

/-- A query region containing both tie points. -/
def tieSector : Sector := ⟨-10, 10, -10, 10⟩

/-- A query region whose lower longitude bound -180.5 is fractional, so that
flooring changes the wrap-before amount. -/
def fractionalSector : Sector := ⟨-10, 10, mkRat (-361) 2, 0⟩

/-- The default color scale of the HeatMapLayer constructor. -/
def defaultScale : List String := ["blue", "cyan", "lime", "yellow", "red"]

/-- A single stored point on the far side of the antimeridian. -/
def farSidePoint : MeasuredLocation := ⟨0, mkRat 1799 10, 5⟩

/-- The wrap-before copy of farSidePoint, shifted by -360 degrees. -/
def farSideShifted : MeasuredLocation := ⟨0, mkRat (-1801) 10, 5⟩

/- ------------------------------------------------------------------ -/
/- Helper lemmas. -/
/- ------------------------------------------------------------------ -/

theorem ratFloor_eq_floor (q : ℚ) : Rat.floor q = ⌊q⌋ := by
  rw [Rat.floor_def', Rat.floor_def]

theorem ratFloor_mono {a b : ℚ} (h : a ≤ b) : Rat.floor a ≤ Rat.floor b := by
  rw [ratFloor_eq_floor, ratFloor_eq_floor]
  exact Int.floor_le_floor h

theorem le_ratFloor {z : Int} {q : ℚ} (h : (z : ℚ) ≤ q) : z ≤ Rat.floor q :=
  Rat.le_floor.mpr h

theorem ratFloor_lt {q : ℚ} {z : Int} (h : q < (z : ℚ)) : Rat.floor q < z := by
  rw [ratFloor_eq_floor]
  exact Int.floor_lt.mpr h

theorem ratFloor_intCast (z : Int) : Rat.floor ((z : ℚ)) = z := by
  rw [ratFloor_eq_floor]
  exact Int.floor_intCast z

theorem mem_intRange {x a b : Int} : x ∈ intRange a b ↔ a ≤ x ∧ x ≤ b := by
  rw [intRange]
  constructor
  · intro h
    obtain ⟨n, hn, heq⟩ := List.mem_map.mp h
    rw [List.mem_range] at hn
    omega
  · intro h
    exact List.mem_map.mpr ⟨(x - a).toNat, List.mem_range.mpr (by omega), by omega⟩

theorem containsLocation_iff {s : Sector} {lat lon : ℚ} :
    s.containsLocation lat lon = true ↔
      s.minLatitude ≤ lat ∧ lat ≤ s.maxLatitude ∧
        s.minLongitude ≤ lon ∧ lon ≤ s.maxLongitude := by
  simp [Sector.containsLocation, and_assoc]

theorem mem_createGrid {pts : List MeasuredLocation} {lat lon : Int}
    {p : MeasuredLocation} :
    p ∈ createGrid pts lat lon ↔
      p ∈ pts ∧ Rat.floor p.latitude = lat ∧ Rat.floor p.longitude = lon := by
  simp [createGrid, List.mem_filter, and_assoc]

theorem extraLongitudeBefore_eq_zero {s : Sector} (h : -180 < s.minLongitude) :
    extraLongitudeBefore s = 0 := by
  rw [extraLongitudeBefore]
  split
  · rename_i h1
    have h2 : (-180 : Int) ≤ Rat.floor s.minLongitude :=
      le_ratFloor (by push_cast; linarith)
    have h3 : Rat.floor s.minLongitude = -180 := le_antisymm h1 h2
    rw [h3]
    decide
  · rfl

theorem extraLongitudeAfter_eq_zero {s : Sector} (h : s.maxLongitude < 180) :
    extraLongitudeAfter s = 0 := by
  rw [extraLongitudeAfter]
  have h2 : Rat.floor s.maxLongitude < 180 := ratFloor_lt (by push_cast; linarith)
  rw [if_neg (by omega)]

theorem extraLongitudeBefore_nonneg (s : Sector) : 0 ≤ extraLongitudeBefore s := by
  rw [extraLongitudeBefore]
  split
  · exact abs_nonneg _
  · exact le_refl 0

theorem extraLongitudeAfter_nonneg (s : Sector) : 0 ≤ extraLongitudeAfter s := by
  rw [extraLongitudeAfter]
  split
  · exact abs_nonneg _
  · exact le_refl 0

theorem grid_no_wrap {cells : Int → Int → List MeasuredLocation} {s : Sector}
    (hb : extraLongitudeBefore s = 0) (ha : extraLongitudeAfter s = 0) :
    GeographicalFilter.grid cells s = gridPrimary cells s := by
  simp [GeographicalFilter.grid, hb, ha]

theorem array_no_wrap {data : List MeasuredLocation} {s : Sector}
    (hb : extraLongitudeBefore s = 0) (ha : extraLongitudeAfter s = 0) :
    GeographicalFilter.array data s = arrayPrimary data s := by
  simp [GeographicalFilter.array, hb, ha]

theorem mem_gridPrimary {pts : List MeasuredLocation} {s : Sector}
    {p : MeasuredLocation} :
    p ∈ gridPrimary (createGrid pts) s ↔
      p ∈ pts ∧ s.containsLocation p.latitude p.longitude = true ∧
        gridMinLatitude s ≤ Rat.floor p.latitude ∧
        Rat.floor p.latitude ≤ gridMaxLatitude s ∧
        gridMinLongitude s ≤ Rat.floor p.longitude ∧
        Rat.floor p.longitude ≤ gridMaxLongitude s := by
  simp only [gridPrimary, List.mem_flatMap, List.mem_filter, mem_intRange,
    mem_createGrid]
  constructor
  · rintro ⟨lat, ⟨h1, h2⟩, lon, ⟨h3, h4⟩, ⟨⟨hp, hfl, hfo⟩, hc⟩⟩
    subst hfl
    subst hfo
    exact ⟨hp, hc, h1, h2, h3, h4⟩
  · rintro ⟨hp, hc, h1, h2, h3, h4⟩
    exact ⟨_, ⟨h1, h2⟩, _, ⟨h3, h4⟩, ⟨⟨hp, rfl, rfl⟩, hc⟩⟩

/-- C3: for every point set whose latitudes lie in [-90, 90] and every query
region that does not require wraparound (lower longitude bound above -180,
upper below 180), the GRID query and the ARRAY query built from the same
point set return the same set of points. -/
theorem grid_array_query_same_set (pts : List MeasuredLocation) (s : Sector)
    (p : MeasuredLocation)
    (hvalid : ∀ q ∈ pts, -90 ≤ q.latitude ∧ q.latitude ≤ 90)
    (hmin : -180 < s.minLongitude) (hmax : s.maxLongitude < 180) :
    p ∈ GeographicalFilter.grid (createGrid pts) s ↔
      p ∈ GeographicalFilter.array pts s := by
  rw [grid_no_wrap (extraLongitudeBefore_eq_zero hmin)
        (extraLongitudeAfter_eq_zero hmax),
      array_no_wrap (extraLongitudeBefore_eq_zero hmin)
        (extraLongitudeAfter_eq_zero hmax),
      mem_gridPrimary, arrayPrimary, List.mem_filter]
  constructor
  · rintro ⟨hp, hc, -⟩
    exact ⟨hp, hc⟩
  · rintro ⟨hp, hc⟩
    obtain ⟨hlat1, hlat2, hlon1, hlon2⟩ := containsLocation_iff.mp hc
    obtain ⟨hv1, hv2⟩ := hvalid p hp
    refine ⟨hp, hc, ?_, ?_, ?_, ?_⟩
    · rw [gridMinLatitude]
      split
      · exact le_ratFloor (by push_cast; linarith)
      · exact ratFloor_mono hlat1
    · rw [gridMaxLatitude]
      split
      · calc Rat.floor p.latitude ≤ Rat.floor (((90 : Int) : ℚ)) :=
              ratFloor_mono (by push_cast; linarith)
          _ = 90 := ratFloor_intCast 90
      · exact ratFloor_mono hlat2
    · rw [gridMinLongitude]
      split
      · exact le_ratFloor (by push_cast; linarith)
      · exact ratFloor_mono hlon1
    · rw [gridMaxLongitude]
      split
      · rename_i hcond
        have : Rat.floor s.maxLongitude < 180 := ratFloor_lt (by push_cast; linarith)
        omega
      · exact ratFloor_mono hlon2

/-- Witness for C3 at a concrete point set, region and point. -/
theorem grid_array_query_same_set_witness :
    (⟨10, 20, 1⟩ : MeasuredLocation) ∈
        GeographicalFilter.grid (createGrid [⟨10, 20, 1⟩]) ⟨0, 30, 0, 30⟩ ↔
      (⟨10, 20, 1⟩ : MeasuredLocation) ∈
        GeographicalFilter.array [⟨10, 20, 1⟩] ⟨0, 30, 0, 30⟩ :=
  grid_array_query_same_set _ _ _ (by decide) (by decide) (by decide)

/-- C4 counterexample: at the region with fractional lower longitude bound
-180.5 the code computes a wrap-before amount of 1 degree, not the 0.5
degrees demanded by the unfloored formula of the claim. -/
theorem wrap_before_amount_not_unfloored :
    fractionalSector.minLongitude ≤ -180 ∧
    ¬ (((extraLongitudeBefore fractionalSector : Int) : ℚ) =
        |fractionalSector.minLongitude - (-180)|) := by
  constructor
  · norm_num [fractionalSector, Rat.mkRat_eq_div]
  · have h1 : extraLongitudeBefore fractionalSector = 1 := by decide
    have h2 : |fractionalSector.minLongitude - (-180)| = 1 / 2 := by
      norm_num [fractionalSector, Rat.mkRat_eq_div]
    rw [h1, h2]
    norm_num

/-- C4 (amended): the wrap amounts are computed from the floored longitude
bounds: the wrap-before amount is the distance of the floored lower bound
from -180 exactly when that floor is at most -180 (equivalently when the
lower bound is below -179) and zero otherwise; the wrap-after amount is the
floored upper bound minus 180 exactly when the upper bound reaches 180 and
zero otherwise; the primary scan bounds are the floored bounds clamped to
[-180, 180]; each wrap pass runs exactly when its amount is strictly
positive, in both GRID and ARRAY modes. -/
theorem wrap_amounts_characterization (s : Sector)
    (cells : Int → Int → List MeasuredLocation)
    (locations : List MeasuredLocation) :
    (s.minLongitude < -179 →
      extraLongitudeBefore s = |Rat.floor s.minLongitude + 180|) ∧
    (-179 ≤ s.minLongitude → extraLongitudeBefore s = 0) ∧
    (180 ≤ s.maxLongitude →
      extraLongitudeAfter s = Rat.floor s.maxLongitude - 180) ∧
    (s.maxLongitude < 180 → extraLongitudeAfter s = 0) ∧
    gridMinLongitude s = max (-180) (Rat.floor s.minLongitude) ∧
    gridMaxLongitude s = min 180 (Rat.floor s.maxLongitude) ∧
    GeographicalFilter.grid cells s =
      gridPrimary cells s ++
        (if 0 < extraLongitudeBefore s then gridBefore cells s else []) ++
        (if 0 < extraLongitudeAfter s then gridAfter cells s else []) ∧
    GeographicalFilter.array locations s =
      arrayPrimary locations s ++
        (if 0 < extraLongitudeBefore s then arrayBefore locations s else []) ++
        (if 0 < extraLongitudeAfter s then arrayAfter locations s else []) := by
  have hb := extraLongitudeBefore_nonneg s
  have ha := extraLongitudeAfter_nonneg s
  have hbiff : (extraLongitudeBefore s ≠ 0) ↔ (0 < extraLongitudeBefore s) := by
    omega
  have haiff : (extraLongitudeAfter s ≠ 0) ↔ (0 < extraLongitudeAfter s) := by
    omega
  refine ⟨?_, ?_, ?_, ?_, ?_, ?_, ?_, ?_⟩
  · intro h
    rw [extraLongitudeBefore, if_pos ?cond]
    case cond =>
      have : Rat.floor s.minLongitude < -179 := ratFloor_lt (by push_cast; linarith)
      omega
    congr 1
  · intro h
    rw [extraLongitudeBefore]
    have h2 : (-179 : Int) ≤ Rat.floor s.minLongitude :=
      le_ratFloor (by push_cast; linarith)
    rw [if_neg (by omega)]
  · intro h
    rw [extraLongitudeAfter, if_pos (le_ratFloor (by push_cast; linarith))]
    have h2 : (180 : Int) ≤ Rat.floor s.maxLongitude :=
      le_ratFloor (by push_cast; linarith)
    rw [abs_of_nonneg (by omega)]
  · exact extraLongitudeAfter_eq_zero
  · rw [gridMinLongitude]
    split <;> omega
  · rw [gridMaxLongitude]
    split <;> omega
  · rw [GeographicalFilter.grid]
    simp only [hbiff, haiff]
  · rw [GeographicalFilter.array]
    simp only [hbiff, haiff]

/-- Witness for C4 at a region wrapping on both sides. -/
theorem wrap_amounts_characterization_witness :
    extraLongitudeBefore ⟨0, 0, -200, 190⟩ =
        |Rat.floor (Sector.mk 0 0 (-200) 190).minLongitude + 180| ∧
    extraLongitudeAfter ⟨0, 0, -200, 190⟩ =
        Rat.floor (Sector.mk 0 0 (-200) 190).maxLongitude - 180 :=
  ⟨(wrap_amounts_characterization ⟨0, 0, -200, 190⟩ (fun _ _ => []) []).1
      (by decide),
    (wrap_amounts_characterization ⟨0, 0, -200, 190⟩ (fun _ _ => []) []).2.2.1
      (by decide)⟩

/-- C5: every point emitted by a wrap-before pass is a copy of a stored point
with the longitude shifted by -360 and latitude and measure unchanged, and
every point emitted by a wrap-after pass is such a copy shifted by +360, in
both ARRAY and GRID modes. -/
theorem wrap_passes_emit_shifted_copies (pts : List MeasuredLocation)
    (s : Sector) (q : MeasuredLocation) :
    (q ∈ arrayBefore pts s → ∃ p, p ∈ pts ∧ q.latitude = p.latitude ∧
      q.longitude = -360 + p.longitude ∧ q.measure = p.measure) ∧
    (q ∈ arrayAfter pts s → ∃ p, p ∈ pts ∧ q.latitude = p.latitude ∧
      q.longitude = 360 + p.longitude ∧ q.measure = p.measure) ∧
    (q ∈ gridBefore (createGrid pts) s → ∃ p, p ∈ pts ∧ q.latitude = p.latitude ∧
      q.longitude = -360 + p.longitude ∧ q.measure = p.measure) ∧
    (q ∈ gridAfter (createGrid pts) s → ∃ p, p ∈ pts ∧ q.latitude = p.latitude ∧
      q.longitude = 360 + p.longitude ∧ q.measure = p.measure) := by
  refine ⟨?_, ?_, ?_, ?_⟩
  · intro hq
    simp only [arrayBefore, List.mem_map, List.mem_filter] at hq
    obtain ⟨p, ⟨hp, -⟩, rfl⟩ := hq
    exact ⟨p, hp, rfl, rfl, rfl⟩
  · intro hq
    simp only [arrayAfter, List.mem_map, List.mem_filter] at hq
    obtain ⟨p, ⟨hp, -⟩, rfl⟩ := hq
    exact ⟨p, hp, rfl, rfl, rfl⟩
  · intro hq
    simp only [gridBefore, List.mem_flatMap, List.mem_map, List.mem_filter,
      mem_createGrid] at hq
    obtain ⟨lat, -, lon, -, p, ⟨⟨hp, -, -⟩, -⟩, rfl⟩ := hq
    exact ⟨p, hp, rfl, rfl, rfl⟩
  · intro hq
    simp only [gridAfter, List.mem_flatMap, List.mem_map, List.mem_filter,
      mem_createGrid] at hq
    obtain ⟨lat, -, lon, -, p, ⟨⟨hp, -, -⟩, -⟩, rfl⟩ := hq
    exact ⟨p, hp, rfl, rfl, rfl⟩

/-- Witness for C5 at the far-side point and the antimeridian region. -/
theorem wrap_passes_emit_shifted_copies_witness :
    ∃ p, p ∈ [farSidePoint] ∧ farSideShifted.latitude = p.latitude ∧
      farSideShifted.longitude = -360 + p.longitude ∧
      farSideShifted.measure = p.measure :=
  (wrap_passes_emit_shifted_copies [farSidePoint] antemeridianSector
    farSideShifted).1 (by decide)

/-- C6: the GeographicalFilter constructor fails with an ArgumentError for
every structure mode other than GRID and ARRAY, never silently defaulting,
and succeeds for GRID and for ARRAY. -/
theorem make_rejects_invalid_mode (data : List MeasuredLocation)
    (mode : String) :
    (mode ≠ gridMode ∧ mode ≠ arrayMode →
      GeographicalFilter.make data mode =
        .error ("The provided data structure was incorrect. Use either GRID or ARRAY.")) ∧
    (mode = gridMode ∨ mode = arrayMode →
      ∃ fd, GeographicalFilter.make data mode = .ok fd) := by
  constructor
  · intro h
    rw [GeographicalFilter.make, if_pos h]
  · rintro (rfl | rfl)
    · exact ⟨.grid (createGrid data), by rw [GeographicalFilter.make] ; simp⟩
    · refine ⟨.array data, by rw [GeographicalFilter.make] ; simp [gridMode, arrayMode]⟩

/-- Witness for C6: the mode OBJECT is rejected, the mode GRID is accepted. -/
theorem make_rejects_invalid_mode_witness :
    GeographicalFilter.make [] ("OBJECT") =
      .error ("The provided data structure was incorrect. Use either GRID or ARRAY.") ∧
    ∃ fd, GeographicalFilter.make [] gridMode = .ok fd :=
  ⟨(make_rejects_invalid_mode [] ("OBJECT")).1 (by decide),
    (make_rejects_invalid_mode [] gridMode).2 (Or.inl rfl)⟩

/-- C7 counterexample: with the default scale and an empty point array the
QUANTILES branch reads the measure of the missing last element and throws,
while the CONTINUOUS branch succeeds, so the claim fails for the empty
point sequence. -/
theorem quantiles_empty_data_fails :
    List.length ([] : List MeasuredLocation) < defaultScale.length ∧
    (setGradient .QUANTILES defaultScale []).1 = none ∧
    (setGradient .CONTINUOUS defaultScale []).1 ≠ none := by
  refine ⟨by decide, by simp [setGradient], by simp [setGradient]⟩

/-- C7 (amended): for every scale and every nonempty point sequence with
fewer points than the scale has colors, the QUANTILES gradient does not fail
and equals the CONTINUOUS gradient for the same scale. -/
theorem quantiles_few_points_degrades_to_continuous (scale : List String)
    (data : List MeasuredLocation) (hne : data ≠ [])
    (hlt : data.length < scale.length) :
    (setGradient .QUANTILES scale data).1 =
      (setGradient .CONTINUOUS scale data).1 ∧
    (setGradient .QUANTILES scale data).1 ≠ none := by
  have hperm := List.mergeSort_perm data fun item1 item2 =>
    decide (item1.measure ≤ item2.measure)
  have hsne : (data.mergeSort fun item1 item2 =>
      decide (item1.measure ≤ item2.measure)) ≠ [] := by
    intro h
    rw [h] at hperm
    exact hne hperm.nil_eq.symm
  have hres : (setGradient .QUANTILES scale data).1 =
      some (continuousGradient scale) := by
    rw [setGradient]
    split
    · rename_i heq
      exact absurd (List.getLast?_eq_none_iff.mp heq) hsne
    · rw [if_neg (by omega)]
  rw [hres]
  constructor
  · rfl
  · simp

/-- Witness for C7 at a two-color scale and one point. -/
theorem quantiles_few_points_degrades_witness :
    (setGradient .QUANTILES ["blue", "cyan"] [⟨1, 2, 3⟩]).1 =
      (setGradient .CONTINUOUS ["blue", "cyan"] [⟨1, 2, 3⟩]).1 ∧
    (setGradient .QUANTILES ["blue", "cyan"] [⟨1, 2, 3⟩]).1 ≠ none :=
  quantiles_few_points_degrades_to_continuous ["blue", "cyan"] [⟨1, 2, 3⟩]
    (by decide) (by decide)

theorem objInsert_fresh (gradient : List (GradientKey × String))
    (key : GradientKey) (color : String)
    (h : ∀ entry ∈ gradient, entry.1 ≠ key) :
    objInsert gradient key color = gradient ++ [(key, color)] := by
  rw [objInsert, if_neg]
  simp only [List.any_eq_true, beq_iff_eq, not_exists, not_and]
  intro entry hmem
  exact h entry hmem

theorem foldl_objInsert_fresh (k : ℚ) (entries : List (ℕ × String))
    (init : List (GradientKey × String))
    (hfresh : ∀ e ∈ entries, ∀ g ∈ init, g.1 ≠ some ((e.1 : ℚ) / k))
    (hnd : (entries.map fun e => (some ((e.1 : ℚ) / k) : GradientKey)).Nodup) :
    entries.foldl
        (fun gradient entry =>
          objInsert gradient (some ((entry.1 : ℚ) / k)) entry.2) init =
      init ++ entries.map fun entry =>
        ((some ((entry.1 : ℚ) / k) : GradientKey), entry.2) := by
  induction entries generalizing init with
  | nil => simp
  | cons e rest ih =>
    rw [List.foldl_cons,
      objInsert_fresh init (some ((e.1 : ℚ) / k)) e.2
        (fun g hg => hfresh e (by simp) g hg)]
    rw [List.map_cons, List.nodup_cons] at hnd
    rw [ih (init ++ [(some ((e.1 : ℚ) / k), e.2)]) ?hfr hnd.2]
    · simp
    case hfr =>
      intro f hf g hg
      rcases List.mem_append.mp hg with hgi | hge
      · exact hfresh f (by simp [hf]) g hgi
      · have hge2 : g = (some ((e.1 : ℚ) / k), e.2) := by simpa using hge
        rw [hge2]
        intro hgf
        have hgf2 : (some ((e.1 : ℚ) / k) : GradientKey) =
            some ((f.1 : ℚ) / k) := hgf
        apply hnd.1
        rw [hgf2]
        exact List.mem_map_of_mem _ hf

theorem continuousGradient_eq (scale : List String) :
    continuousGradient scale =
      scale.enum.map fun entry =>
        ((some ((entry.1 : ℚ) / (scale.length : ℚ)) : GradientKey), entry.2) := by
  rcases eq_or_ne scale [] with rfl | hne
  · rfl
  have hk : ((scale.length : ℚ)) ≠ 0 :=
    Nat.cast_ne_zero.mpr fun h => hne (List.length_eq_zero.mp h)
  rw [continuousGradient, foldl_objInsert_fresh _ _ [] (by simp) ?nodup]
  · rw [List.nil_append]
  case nodup =>
    have hcomp : (fun e : ℕ × String =>
        (some ((e.1 : ℚ) / (scale.length : ℚ)) : GradientKey)) =
        (fun i : ℕ => (some ((i : ℚ) / (scale.length : ℚ)) : GradientKey)) ∘
          Prod.fst := rfl
    rw [hcomp, ← List.map_map, List.enum_map_fst]
    refine List.Nodup.map ?inj (List.nodup_range _)
    intro i j hij
    simp only [Option.some_inj] at hij
    exact Nat.cast_injective ((div_left_inj' hk).mp hij)

/-- C8: the CONTINUOUS gradient of a scale of length k pairs the stop i / k
with the color at position i of the scale, for i from 0 to k - 1; its stop
list is exactly the list of these fractions in ascending index order; the
table does not depend on the point data, so rebuilding with the same scale
yields an identical table. -/
theorem continuous_gradient_characterization (scale : List String)
    (data data2 : List MeasuredLocation) :
    (setGradient .CONTINUOUS scale data).1 =
      some (scale.enum.map fun entry =>
        ((some ((entry.1 : ℚ) / (scale.length : ℚ)) : GradientKey), entry.2)) ∧
    (continuousGradient scale).map Prod.fst =
      (List.range scale.length).map
        (fun (index : ℕ) =>
          (some ((index : ℚ) / (scale.length : ℚ)) : GradientKey)) ∧
    (setGradient .CONTINUOUS scale data).1 =
      (setGradient .CONTINUOUS scale data2).1 := by
  refine ⟨?_, ?_, rfl⟩
  · rw [setGradient, continuousGradient_eq]
  · rw [continuousGradient_eq, List.map_map]
    have hcomp2 : (Prod.fst ∘ fun entry : ℕ × String =>
        ((some ((entry.1 : ℚ) / (scale.length : ℚ)) : GradientKey), entry.2)) =
        (fun i : ℕ => (some ((i : ℚ) / (scale.length : ℚ)) : GradientKey)) ∘
          Prod.fst := rfl
    rw [hcomp2, ← List.map_map, List.enum_map_fst]

/-- C9: for every tile sector the extended region grows each bound by the
extension factor (fixed at its default 1) times the span of the matching
axis, symmetrically, and the canvas dimensions handed to the tile renderer
are the tile size plus twice the ceiling of the extension factor times the
tile size on each axis, here 512 + 2 * 512 = 1536. -/
theorem extended_sector_and_canvas (s : Sector) :
    (calculateExtendedSector s).2 = 1 ∧
    (calculateExtendedSector s).1.minLatitude =
      s.minLatitude -
        (calculateExtendedSector s).2 * (s.maxLatitude - s.minLatitude) ∧
    (calculateExtendedSector s).1.maxLatitude =
      s.maxLatitude +
        (calculateExtendedSector s).2 * (s.maxLatitude - s.minLatitude) ∧
    (calculateExtendedSector s).1.minLongitude =
      s.minLongitude -
        (calculateExtendedSector s).2 * (s.maxLongitude - s.minLongitude) ∧
    (calculateExtendedSector s).1.maxLongitude =
      s.maxLongitude +
        (calculateExtendedSector s).2 * (s.maxLongitude - s.minLongitude) ∧
    retrieveCanvasWidth s =
      (tileWidth : Int) +
        2 * ⌈(calculateExtendedSector s).2 * (tileWidth : ℚ)⌉ ∧
    retrieveCanvasHeight s =
      (tileHeight : Int) +
        2 * ⌈(calculateExtendedSector s).2 * (tileHeight : ℚ)⌉ ∧
    retrieveCanvasWidth s = 1536 ∧ retrieveCanvasHeight s = 1536 := by
  refine ⟨rfl, ?_, ?_, ?_, ?_, rfl, rfl, ?_, ?_⟩
  · simp [calculateExtendedSector]
  · simp [calculateExtendedSector]
  · simp [calculateExtendedSector]
  · simp [calculateExtendedSector]
  · rw [retrieveCanvasWidth]
    norm_num [calculateExtendedSector, tileWidth]
  · rw [retrieveCanvasHeight]
    norm_num [calculateExtendedSector, tileHeight]

/-- C10: when the interval type is QUANTILES, the point array passed to
setGradient is, after the call, sorted ascending by measure and is a
permutation of the original array, so the caller observes a reordering in
which no individual point record is modified. -/
theorem quantiles_sorts_data_in_place (scale : List String)
    (data : List MeasuredLocation) :
    (setGradient .QUANTILES scale data).2.Pairwise
        (fun a b => a.measure ≤ b.measure) ∧
    ((setGradient .QUANTILES scale data).2).Perm data := by
  have h2 : (setGradient .QUANTILES scale data).2 =
      data.mergeSort fun item1 item2 => decide (item1.measure ≤ item2.measure) := by
    rw [setGradient]
    split
    · rfl
    · split
      · rfl
      · rfl
  rw [h2]
  constructor
  · have hs := @List.sorted_mergeSort MeasuredLocation
      (fun item1 item2 => decide (item1.measure ≤ item2.measure))
      (fun a b c hab hbc => by
        simp only [decide_eq_true_eq] at hab hbc ⊢
        exact le_trans hab hbc)
      (fun a b => by
        simp only [Bool.or_eq_true, decide_eq_true_eq]
        exact le_total a.measure b.measure)
      data
    exact hs.imp fun h => of_decide_eq_true h
  · exact List.mergeSort_perm data _

/-- C1 (code bug): at the tie points, filter returns two points of equal
latitude with longitudes 2 then 1, so the output is not sorted ascending by
longitude among equal latitudes.  The comparator compares the longitude of
its second argument with itself in the tie-break branch and can never report
less-than, contradicting the documented sort order of filter. -/
theorem filter_equal_latitudes_keep_pass_order :
    (GeographicalFilter.filter (.array tiePoints) tieSector).map
        MeasuredLocation.latitude = [0, 0] ∧
    (GeographicalFilter.filter (.array tiePoints) tieSector).map
        MeasuredLocation.longitude = [2, 1] ∧
    ¬ ((GeographicalFilter.filter (.array tiePoints) tieSector).map
        MeasuredLocation.longitude).Sorted (· ≤ ·) := by
  refine ⟨by decide, by decide, by decide⟩

set_option maxHeartbeats 4000000 in
/-- C2 (amended): querying the reference point set in GRID mode through
filter with the region of latitudes -30 to 30 and longitudes -225 to -160
returns exactly 12 points whose longitudes, in the returned order, are
descending: -160, -165, -170, -175, -179.9, -180.1, -185, -190, -195, -200,
-205, -210; the order is ascending by latitude, which for this data reverses
the longitudes. -/
theorem reference_antemeridian_query_descending :
    (GeographicalFilter.filter (.grid (createGrid referenceLocations))
        antemeridianSector).map MeasuredLocation.longitude =
      [-160, -165, -170, -175, mkRat (-1799) 10, mkRat (-1801) 10,
        -185, -190, -195, -200, -205, -210] ∧
    (GeographicalFilter.filter (.grid (createGrid referenceLocations))
        antemeridianSector).length = 12 := by
  have h : (GeographicalFilter.filter (.grid (createGrid referenceLocations))
      antemeridianSector).map MeasuredLocation.longitude =
      [-160, -165, -170, -175, mkRat (-1799) 10, mkRat (-1801) 10,
        -185, -190, -195, -200, -205, -210] := by decide
  refine ⟨h, ?_⟩
  have h2 := congrArg List.length h
  simpa using h2

set_option maxHeartbeats 4000000 in
/-- C2 counterexample: the longitudes returned for the reference
antimeridian query are not in the ascending order demanded by the claim. -/
theorem reference_antemeridian_query_not_ascending :
    ¬ ((GeographicalFilter.filter (.grid (createGrid referenceLocations))
        antemeridianSector).map MeasuredLocation.longitude =
      [-210, -205, -200, -195, -190, -185, mkRat (-1801) 10,
        mkRat (-1799) 10, -175, -170, -165, -160]) := by decide

end HeatMapVerification
